import Mathlib

/-!
Shallow embedding of the qwiic_scale library (NAU7802.cpp / NAU7802.h /
QwiicScale.cpp / QwiicScale.h) and verification of the claims about it.

Machine integers are modelled as `Int` / `Nat`; the `float` fields of
`QwiicScale` are modelled as exact rationals (`Rat`): every concrete value a
claim mentions (0, 0.5, 1.0, 2.0, 0.001, 1000) is exactly representable in
IEEE float and the arithmetic the claims exercise incurs no rounding, so the
rational model agrees with the C float semantics on those inputs.
Loops are embedded with explicit fuel; the device and the clock are
parameters (a stream of poll results, and the elapsed-milliseconds value
observed at each loop iteration).
-/

namespace QwiicScaleVerif

/-! ## Error codes (NAU7802.h lines 166-175, QwiicScale.h lines 13-16) -/

def NAU7802_OK : Int := 0
def NAU7802_I2C_DATA_TOO_BIG_ERROR : Int := -1
def NAU7802_I2C_NACK_ADDR_ERROR : Int := -2
def NAU7802_I2C_NACK_DATA_ERROR : Int := -3
def NAU7802_I2C_ERROR : Int := -4
def NAU7802_I2C_NO_DATA_ERROR : Int := -5
def NAU7802_TIMEOUT_ERROR : Int := -6
def NAU7802_POWER_UP_ERROR : Int := -7
def NAU7802_CAL_AFE_ERROR : Int := -8

/-- Calibration states (NAU7802.h lines 158-163). `calAFEStatus` can also
return a negative transport error code through this (int-backed) enum. -/
def NAU7802_CAL_SUCCESS : Int := 0
def NAU7802_CAL_IN_PROGRESS : Int := 1
def NAU7802_CAL_FAILURE : Int := 2

def SCALE_OK : Int := 0
def SCALE_EEPROM_READ_CAL_ERROR : Int := -1001
def SCALE_EEPROM_READ_OFFSET_ERROR : Int := -1002
def SCALE_NOT_CALIBRATED_ERROR : Int := -1003

/-! ## i2c_write (NAU7802.cpp lines 308-333)

The transport is abstracted by `r : Nat → Nat`, the value returned by
`endTransmission()` on the k-th attempt (Wire convention: 0 success,
1 data too long, 2 NACK on address, 3 NACK on data, 4 other error).
The embedding returns the surfaced code together with the number of
attempts performed. -/

/-- One step per remaining `tries`; `lastRet` is the value `ret` holds when
the `while (tries)` loop exits by exhaustion. The source retries (tries--)
exactly on `case 1: case 2:` and returns every other code at once. -/
def i2c_writeLoop (r : Nat → Nat) : Nat → Nat → Nat → Nat × Nat
  | lastRet, attempt, 0 => (lastRet, attempt)
  | _, attempt, Nat.succ tries =>
    let ret := r attempt
    if ret = 1 ∨ ret = 2 then i2c_writeLoop r ret (attempt + 1) tries
    else (ret, attempt + 1)

/-- NAU7802::i2c_write with `int tries = 3`. Result: (surfaced endTransmission
code, attempts made). -/
def i2c_write (r : Nat → Nat) : Nat × Nat :=
  i2c_writeLoop r 0 0 3

/-! ## waitForCalibrateAFE (NAU7802.cpp lines 166-181)

`status k` is the value `calAFEStatus()` returns on the k-th poll (1 while
in progress, 2 on calibration failure, 0 on success, negative on a
transport error — `calAFEStatus` forwards `getBit`'s error code).
`elapsed k` is the value of `millis() - begin` observed on the k-th
iteration (the loop delays 1 ms per iteration). `fuel` bounds the number of
loop iterations; `none` means the fuel ran out (the loop is still running). -/
def waitLoop (status : Nat → Int) (elapsed : Nat → Nat) (timeout_ms : Nat) :
    Nat → Nat → Option Int
  | _, 0 => none
  | k, Nat.succ fuel =>
    if status k = NAU7802_CAL_IN_PROGRESS then
      if 0 < timeout_ms ∧ timeout_ms < elapsed k then some NAU7802_CAL_AFE_ERROR
      else waitLoop status elapsed timeout_ms (k + 1) fuel
    else some NAU7802_OK

/-- NAU7802::waitForCalibrateAFE. Any poll result other than
NAU7802_CAL_IN_PROGRESS — including NAU7802_CAL_FAILURE and negative
transport error codes — exits the while loop into `return NAU7802_OK`. -/
def waitForCalibrateAFE (status : Nat → Int) (elapsed : Nat → Nat)
    (timeout_ms : Nat) (fuel : Nat) : Option Int :=
  waitLoop status elapsed timeout_ms 0 fuel

/-! ## getReading sign decode (NAU7802.cpp lines 355-373)

The three bytes of the burst read are assembled MSB first into a uint32,
shifted left 8 bits into an int32, then arithmetically shifted right 8 bits
to sign-extend bit 23. -/

/-- Reinterpret a uint32 bit pattern as int32 (the C cast on line 368). -/
def toInt32 (n : Nat) : Int :=
  if n % 4294967296 < 2147483648 then (n % 4294967296 : Nat)
  else (n % 4294967296 : Nat) - 4294967296

/-- Arithmetic right shift of an int32 by `n` bits (C `>>` on int32_t,
line 371): floor division by 2^n. -/
def asr (x : Int) (n : Nat) : Int := Int.fdiv x (2 ^ n)

/-- The decode performed by NAU7802::getReading on the three received bytes
(MSB, MidSB, LSB). The source combines the bytes with `<< 16 | << 8 | `;
for byte values the bit ranges are disjoint, so this equals the sum below. -/
def getReading_decode (b2 b1 b0 : Nat) : Int :=
  let valueRaw : Nat := b2 * 65536 + b1 * 256 + b0
  let valueShifted : Int := toInt32 (valueRaw * 256)
  asr valueShifted 8

/-! ## getAverageReading (NAU7802.cpp lines 379-417)

The device is abstracted by a stream `dev : Nat → DevPoll` giving, for the
k-th loop iteration, the outcome of `available()` and (when ready) of
`getReading()`. `elapsed k` is the value of `millis() - startTime` observed
at the timeout check of iteration k. `none` = fuel ran out mid-loop. -/

/-- Outcome of one loop iteration's device interactions. -/
structure DevPoll where
  availErr : Int
  ready : Bool
  readErr : Int
  value : Int

/-- The `while (samplesAquired < average_size)` loop, plus the final
`*average = total / average_size` (Int division; with `average_size = 0`
the C expression divides by zero — undefined behaviour — which the Int
model maps to 0). Result: `some (error code, some average)` on the success
path, `some (error code, none)` on an early return, `none` if fuel ran out. -/
def getAverageLoop (dev : Nat → DevPoll) (elapsed : Nat → Nat) (timeout : Nat)
    (average_size : Nat) : Nat → Nat → Int → Nat → Option (Int × Option Int)
  | _, samplesAquired, total, 0 =>
    if samplesAquired < average_size then none
    else some (NAU7802_OK, some (total / (average_size : Int)))
  | k, samplesAquired, total, Nat.succ fuel =>
    if samplesAquired < average_size then
      let p := dev k
      if p.availErr ≠ 0 then some (p.availErr, none)
      else if p.ready = true ∧ p.readErr ≠ 0 then some (p.readErr, none)
      else
        let total' := if p.ready then total + p.value else total
        let samplesAquired' :=
          if p.ready then samplesAquired + 1 else samplesAquired
        if timeout < elapsed k then some (NAU7802_TIMEOUT_ERROR, none)
        else getAverageLoop dev elapsed timeout average_size (k + 1)
          samplesAquired' total' fuel
    else some (NAU7802_OK, some (total / (average_size : Int)))

/-- NAU7802::getAverageReading. The timeout budget is the source's
`average_size * 13` (line 388, commented "Hard-coded for 80 hz rate for
now"); it does not depend on the sample rate configured on the device. -/
def getAverageReading (dev : Nat → DevPoll) (elapsed : Nat → Nat)
    (average_size : Nat) (fuel : Nat) : Option (Int × Option Int) :=
  getAverageLoop dev elapsed (average_size * 13) average_size 0 0 0 fuel

/-! ## QwiicScale state and EEPROM (QwiicScale.h, QwiicScale.cpp)

`float` members are exact rationals plus, for values read back from EEPROM,
a NaN flag (`isnan` on line 97 of QwiicScale.cpp). The `long` zero offset
read back on line 111 is a 32-bit signed value; `isnan` of an integral
type is always false, and `settingZeroOffset == 0xFFFFFFFF` compares the
long against the unsigned literal, which holds exactly when the 32-bit
value is -1. -/

/-- A float value as read back from EEPROM: its rational value and whether
the bit pattern is a NaN. -/
structure FloatCell where
  val : Rat
  isnan : Bool
  deriving DecidableEq

/-- The two persisted calibration cells (at `calFactorLocation` and
`zeroOffsetLocation`). -/
structure EEPROMState where
  calFactorCell : FloatCell
  zeroOffsetCell : Int
  deriving DecidableEq

/-- The in-memory QwiicScale members touched by readCalibration. -/
structure ScaleState where
  isCalibrated : Bool
  calibrationDetected : Bool
  zeroOffset : Int
  calibrationFactor : Rat
  deriving DecidableEq

/-- QwiicScale::readCalibration (QwiicScale.cpp lines 90-136). Returns the
updated in-memory state, the updated EEPROM contents, and the error code.
The float sentinel test `settingCalibrationFactor == 0xFFFFFFFF` is modelled
as equality with 4294967295; the long sentinel test is equality with -1
(see the section comment). -/
def readCalibration (e : EEPROMState) (s : ScaleState) :
    ScaleState × EEPROMState × Int :=
  let settingCalibrationFactor := e.calFactorCell
  if settingCalibrationFactor.val = 4294967295 ∨
      settingCalibrationFactor.isnan = true then
    (⟨false, false, 0, 1⟩, { e with calFactorCell := ⟨1, false⟩ },
      SCALE_EEPROM_READ_CAL_ERROR)
  else
    let s1 := { s with calibrationFactor := settingCalibrationFactor.val }
    let settingZeroOffset := e.zeroOffsetCell
    if settingZeroOffset = -1 then
      (⟨false, false, 0, 1⟩,
        { e with zeroOffsetCell := 0, calFactorCell := ⟨1, false⟩ },
        SCALE_EEPROM_READ_OFFSET_ERROR)
    else
      let s2 := { s1 with zeroOffset := settingZeroOffset,
                          calibrationDetected := true }
      if s2.zeroOffset = 0 ∨ s2.calibrationFactor - 1 < (1 : Rat) / 1000 then
        ({ s2 with isCalibrated := false, calibrationDetected := false },
          e, SCALE_OK)
      else
        ({ s2 with isCalibrated := true }, e, SCALE_OK)

/-- QwiicScale::storeCalibration (QwiicScale.cpp lines 139-144) writes the
calibration factor at `calFactorLocation` and the zero offset at
`zeroOffsetLocation`: the embedding returns the two (location, value)
writes it performs. -/
def storeCalibration (calFactorLocation zeroOffsetLocation : Int)
    (calibrationFactor : Rat) (zeroOffset : Int) :
    (Int × Rat) × (Int × Int) :=
  ((calFactorLocation, calibrationFactor), (zeroOffsetLocation, zeroOffset))

/-- The two EEPROM location members with their defaults
(QwiicScale.h lines 55-56). -/
structure Locations where
  calFactorLocation : Int
  zeroOffsetLocation : Int
  deriving DecidableEq

def defaultLocations : Locations := ⟨0, 10⟩

/-- QwiicScale::setCalFactorLocation (QwiicScale.h line 48):
`calFactorLocation = eeprom_location`. -/
def setCalFactorLocation (eeprom_location : Int) (l : Locations) : Locations :=
  { l with calFactorLocation := eeprom_location }

/-- QwiicScale::setZeroOffsetLocation (QwiicScale.h line 49): its body is
`calFactorLocation = eeprom_location;` — it assigns `calFactorLocation`,
not `zeroOffsetLocation`. -/
def setZeroOffsetLocation (eeprom_location : Int) (l : Locations) :
    Locations :=
  { l with calFactorLocation := eeprom_location }

/-- QwiicScale::getAverageWeight (QwiicScale.cpp lines 62-86), abstracting
the inner getAverageReading call by its outcome (`readErr`, and the
averaged reading it would deliver on success). Returns the error code and,
on success, the computed weight `(avg_reading - zeroOffset) /
calibrationFactor`. -/
def getAverageWeight (s : ScaleState) (readErr : Int) (reading : Int)
    (allow_negative : Bool) : Int × Option Rat :=
  if s.isCalibrated = false then (SCALE_NOT_CALIBRATED_ERROR, none)
  else if readErr ≠ 0 then (readErr, none)
  else
    let avg_reading :=
      if allow_negative = false ∧ reading < s.zeroOffset then s.zeroOffset
      else reading
    (SCALE_OK, some (((avg_reading - s.zeroOffset : Int) : Rat) /
      s.calibrationFactor))

/-! ## Claims -/

/-- C1: the claim says a `Failed` poll result makes waitForCalibrateAFE
return a calibration-failure error, and a transport error during polling is
propagated unchanged. The code does neither: any poll result other than
NAU7802_CAL_IN_PROGRESS exits the while loop into `return NAU7802_OK`, so
both a NAU7802_CAL_FAILURE status and a transport error (here
NAU7802_I2C_ERROR, forwarded by calAFEStatus) yield success. -/
theorem waitForCalibrateAFE_swallows_failure_and_transport :
    waitForCalibrateAFE (fun _ => NAU7802_CAL_FAILURE) (fun k => k) 1000 5
      = some NAU7802_OK ∧
    waitForCalibrateAFE (fun _ => NAU7802_I2C_ERROR) (fun k => k) 1000 5
      = some NAU7802_OK ∧
    NAU7802_OK ≠ NAU7802_CAL_AFE_ERROR ∧
    NAU7802_OK ≠ NAU7802_I2C_ERROR := by
  refine ⟨rfl, rfl, by decide, by decide⟩

/-- C2 counterexample: with the device reporting Calibrating on every poll
and timeout_ms = 1 (1 ms cadence, `elapsed k = k`), waitForCalibrateAFE
returns NAU7802_CAL_AFE_ERROR — the AFE-calibration error code, not the
library's timeout error NAU7802_TIMEOUT_ERROR — so the claim that it
returns a timeout error distinct from the calibration-failure error fails. -/
theorem waitForCalibrateAFE_timeout_not_timeout_error :
    waitForCalibrateAFE (fun _ => NAU7802_CAL_IN_PROGRESS) (fun k => k) 1 4
        = some NAU7802_CAL_AFE_ERROR ∧
    waitForCalibrateAFE (fun _ => NAU7802_CAL_IN_PROGRESS) (fun k => k) 1 4
        ≠ some NAU7802_TIMEOUT_ERROR := by
  refine ⟨rfl, by decide⟩

/-- Helper for C2: with a constantly-Calibrating device and 1 ms cadence,
the loop starting at iteration k with exactly enough fuel returns
NAU7802_CAL_AFE_ERROR once elapsed time exceeds timeout_ms. -/
theorem waitLoop_const_calibrating_timeout (t : Nat) :
    ∀ fuel k : Nat, 0 < t → k ≤ t + 1 → k + fuel = t + 2 →
      waitLoop (fun _ => NAU7802_CAL_IN_PROGRESS) (fun j => j) t k fuel
        = some NAU7802_CAL_AFE_ERROR := by
  intro fuel
  induction fuel with
  | zero => intro k _ _ _; omega
  | succ n ih =>
    intro k ht hk hs
    simp only [waitLoop]
    split
    · split
      · rfl
      · rename_i hin
        have hkt : ¬ t < k := fun hlt => hin ⟨ht, hlt⟩
        exact ih (k + 1) ht (by omega) (by omega)
    · rename_i hstat
      exact absurd trivial hstat

/-- Helper for C2: with timeout_ms = 0 and a constantly-Calibrating device
the loop never returns, whatever the fuel: it polls indefinitely. -/
theorem waitLoop_const_calibrating_no_timeout :
    ∀ fuel k : Nat,
      waitLoop (fun _ => NAU7802_CAL_IN_PROGRESS) (fun j => j) 0 k fuel
        = none := by
  intro fuel
  induction fuel with
  | zero => intro k; rfl
  | succ n ih =>
    intro k
    simp only [waitLoop]
    split
    · split
      · rename_i hin
        exact absurd hin.1 (by decide)
      · exact ih (k + 1)
    · rename_i hstat
      exact absurd trivial hstat

/-- C2 amended: for every timeout_ms > 0, with calAFEStatus reporting
Calibrating on every poll (1 ms cadence), waitForCalibrateAFE returns,
once elapsed time exceeds timeout_ms, the error NAU7802_CAL_AFE_ERROR —
which is distinct from success but is the AFE-calibration error code, not
the library's NAU7802_TIMEOUT_ERROR; and when timeout_ms = 0 it polls
indefinitely. -/
theorem waitForCalibrateAFE_timeout_behaviour :
    (∀ t fuel : Nat, 0 < t → fuel = t + 2 →
      waitForCalibrateAFE (fun _ => NAU7802_CAL_IN_PROGRESS) (fun j => j) t
          fuel = some NAU7802_CAL_AFE_ERROR) ∧
    (∀ fuel : Nat,
      waitForCalibrateAFE (fun _ => NAU7802_CAL_IN_PROGRESS) (fun j => j) 0
          fuel = none) ∧
    NAU7802_CAL_AFE_ERROR ≠ NAU7802_OK := by
  refine ⟨?_, ?_, by decide⟩
  · intro t fuel ht hs
    exact waitLoop_const_calibrating_timeout t fuel 0 ht (by omega) (by omega)
  · intro fuel
    exact waitLoop_const_calibrating_no_timeout fuel 0

/-- Witness for C2's amended theorem at timeout_ms = 1 and timeout_ms = 0. -/
theorem waitForCalibrateAFE_timeout_behaviour_witness :
    waitForCalibrateAFE (fun _ => NAU7802_CAL_IN_PROGRESS) (fun j => j) 1 3
        = some NAU7802_CAL_AFE_ERROR ∧
    waitForCalibrateAFE (fun _ => NAU7802_CAL_IN_PROGRESS) (fun j => j) 0 7
        = none :=
  ⟨waitForCalibrateAFE_timeout_behaviour.1 1 3 (by decide) rfl,
   waitForCalibrateAFE_timeout_behaviour.2.1 7⟩

/-- C3: the claim says getAverageReading with average_size = 0 returns an
explicit error and never divides by zero. In the code, `samplesAquired <
average_size` is immediately false, so the loop body never runs and the
function reaches `*average = total / average_size` with average_size = 0 —
a division by zero (undefined behaviour in C; 0 in the Int model) — and
returns NAU7802_OK, for every device, clock, and fuel. -/
theorem getAverageReading_zero_size_divides_by_zero :
    ∀ (dev : Nat → DevPoll) (elapsed : Nat → Nat) (fuel : Nat),
      getAverageReading dev elapsed 0 fuel = some (NAU7802_OK, some 0) := by
  intro dev elapsed fuel
  cases fuel <;> rfl

/-- C4: the claim says i2c_write retries (up to 3 attempts) on a NACK at
the address phase or at the data phase and surfaces every other class
immediately. The code retries on endTransmission codes 1 and 2 — in the
Wire convention used by this very file's error mapping, 1 is data-too-long
and 2 is NACK-address — and surfaces 3 (NACK-data) immediately: a
persistent NACK-data gives up after a single attempt, while a persistent
data-too-long condition is retried for 3 attempts. -/
theorem i2c_write_retries_wrong_classes :
    i2c_write (fun _ => 3) = (3, 1) ∧
    i2c_write (fun _ => 1) = (1, 3) ∧
    i2c_write (fun _ => 2) = (2, 3) ∧
    i2c_write (fun _ => 4) = (4, 1) ∧
    i2c_write (fun _ => 0) = (0, 1) := by
  refine ⟨rfl, rfl, rfl, rfl, rfl⟩

/-- C5: getReading decodes the three burst-read bytes big-endian into the
sign-extended 24-bit two's-complement value: for all byte values the result
is the canonical signed interpretation of the 24-bit word, hence lies in
[-2^23, 2^23 - 1], and the four boundary cases decode as the claim states. -/
theorem getReading_decode_sign_extends (b2 b1 b0 : Nat)
    (h2 : b2 < 256) (h1 : b1 < 256) (h0 : b0 < 256) :
    (getReading_decode b2 b1 b0 =
      (if b2 * 65536 + b1 * 256 + b0 < 8388608
       then ((b2 * 65536 + b1 * 256 + b0 : Nat) : Int)
       else ((b2 * 65536 + b1 * 256 + b0 : Nat) : Int) - 16777216) ∧
     -8388608 ≤ getReading_decode b2 b1 b0 ∧
     getReading_decode b2 b1 b0 ≤ 8388607) ∧
    getReading_decode 127 255 255 = 8388607 ∧
    getReading_decode 128 0 0 = -8388608 ∧
    getReading_decode 255 255 255 = -1 ∧
    getReading_decode 0 0 1 = 1 := by
  refine ⟨?_, by decide, by decide, by decide, by decide⟩
  set raw : Nat := b2 * 65536 + b1 * 256 + b0 with hraw
  have hlt : raw < 16777216 := by omega
  have hmod : raw * 256 % 4294967296 = raw * 256 := Nat.mod_eq_of_lt (by omega)
  have hdec : getReading_decode b2 b1 b0 = asr (toInt32 (raw * 256)) 8 := rfl
  rw [hdec, toInt32, hmod]
  by_cases hs : raw < 8388608
  · rw [if_pos (by omega)]
    have hcast : ((raw * 256 : Nat) : Int) = (raw : Int) * 256 := by push_cast; ring
    rw [hcast, asr]
    have : Int.fdiv ((raw : Int) * 256) (2 ^ 8) = (raw : Int) :=
      Int.mul_fdiv_cancel _ (by decide)
    rw [this, if_pos hs]
    refine ⟨rfl, by omega, by omega⟩
  · rw [if_neg (by omega)]
    have hcast : ((raw * 256 : Nat) : Int) - 4294967296
        = ((raw : Int) - 16777216) * 256 := by push_cast; ring
    rw [hcast, asr]
    have : Int.fdiv (((raw : Int) - 16777216) * 256) (2 ^ 8)
        = (raw : Int) - 16777216 := Int.mul_fdiv_cancel _ (by decide)
    rw [this, if_neg hs]
    refine ⟨rfl, by omega, by omega⟩

/-- Witness for C5 at the concrete bytes 0x12 0x34 0x56. -/
theorem getReading_decode_sign_extends_witness :
    (getReading_decode 18 52 86 =
      (if 18 * 65536 + 52 * 256 + 86 < 8388608
       then ((18 * 65536 + 52 * 256 + 86 : Nat) : Int)
       else ((18 * 65536 + 52 * 256 + 86 : Nat) : Int) - 16777216) ∧
     -8388608 ≤ getReading_decode 18 52 86 ∧
     getReading_decode 18 52 86 ≤ 8388607) ∧
    getReading_decode 127 255 255 = 8388607 ∧
    getReading_decode 128 0 0 = -8388608 ∧
    getReading_decode 255 255 255 = -1 ∧
    getReading_decode 0 0 1 = 1 :=
  getReading_decode_sign_extends 18 52 86 (by decide) (by decide) (by decide)

/-- C6 counterexample: a persisted record with zeroOffset = 1000 (nonzero)
and gainFactor exactly 1.0 (valid: not the sentinel, not NaN — the call
returns SCALE_OK) must, per the claim, be marked calibrated; the code marks
it NOT calibrated, because its test is a disjunction `zeroOffset == 0 ||
(calibrationFactor - 1.0) < 0.001` rather than the claimed conjunction.
A record with gainFactor 0.5 ("well below 1.0") is likewise marked not
calibrated, against the claim's second example. -/
theorem readCalibration_calibrated_flag_counterexample :
    (readCalibration ⟨⟨1, false⟩, 1000⟩ ⟨false, false, 0, 1⟩).2.2 = SCALE_OK ∧
    (readCalibration ⟨⟨1, false⟩, 1000⟩
        ⟨false, false, 0, 1⟩).1.isCalibrated = false ∧
    (readCalibration ⟨⟨(1 : Rat) / 2, false⟩, 1000⟩
        ⟨false, false, 0, 1⟩).2.2 = SCALE_OK ∧
    (readCalibration ⟨⟨(1 : Rat) / 2, false⟩, 1000⟩
        ⟨false, false, 0, 1⟩).1.isCalibrated = false := by
  refine ⟨?_, ?_, ?_, ?_⟩ <;> norm_num [readCalibration, SCALE_OK]

/-- C6 amended: after readCalibration reads back both persisted fields as
valid (factor neither the all-ones sentinel nor NaN, offset not the
sentinel), the call returns SCALE_OK and the derived is-calibrated flag is
false exactly when zeroOffset is zero OR the factor satisfies
calibrationFactor - 1.0 < 0.001 (a signed, not absolute, difference: every
factor below about 1.001 — including all factors at or below 1.0 — is
treated as uncalibrated), and true otherwise. -/
theorem readCalibration_isCalibrated_iff (e : EEPROMState) (s : ScaleState)
    (hv : e.calFactorCell.val ≠ 4294967295)
    (hn : e.calFactorCell.isnan = false)
    (hz : e.zeroOffsetCell ≠ -1) :
    (readCalibration e s).2.2 = SCALE_OK ∧
    ((readCalibration e s).1.isCalibrated = false ↔
      e.zeroOffsetCell = 0 ∨
        e.calFactorCell.val - 1 < (1 : Rat) / 1000) := by
  unfold readCalibration
  rw [if_neg (by simp [hv, hn]), if_neg hz]
  by_cases h : e.zeroOffsetCell = 0 ∨ e.calFactorCell.val - 1 < (1 : Rat) / 1000
  · rw [if_pos h]
    exact ⟨rfl, by simpa using h⟩
  · rw [if_neg h]
    constructor
    · rfl
    · constructor
      · intro hfalse; exact absurd hfalse (by simp)
      · intro hor; exact absurd hor h

/-- Witness for C6's amended theorem: a valid record with offset 1000 and
factor 2.0 is marked calibrated (the right side of the iff is false). -/
theorem readCalibration_isCalibrated_iff_witness :
    (readCalibration ⟨⟨2, false⟩, 1000⟩ ⟨false, false, 0, 1⟩).2.2 = SCALE_OK ∧
    ((readCalibration ⟨⟨2, false⟩, 1000⟩
        ⟨false, false, 0, 1⟩).1.isCalibrated = false ↔
      (⟨⟨2, false⟩, 1000⟩ : EEPROMState).zeroOffsetCell = 0 ∨
        (⟨⟨2, false⟩, 1000⟩ : EEPROMState).calFactorCell.val - 1
          < (1 : Rat) / 1000) :=
  readCalibration_isCalibrated_iff ⟨⟨2, false⟩, 1000⟩ ⟨false, false, 0, 1⟩
    (by decide) rfl (by decide)

/-- C7 counterexample: readCalibration on a record whose gain-factor field
reads back as NaN resets memory to the defaults and returns
SCALE_EEPROM_READ_CAL_ERROR, but it does NOT rewrite both persisted fields:
the persisted zero-offset cell keeps its old value (555 here, not the
default 0) — only the gain-factor cell is rewritten. -/
theorem readCalibration_nan_counterexample :
    (readCalibration ⟨⟨0, true⟩, 555⟩ ⟨true, true, 7, 3⟩).2.2
        = SCALE_EEPROM_READ_CAL_ERROR ∧
    (readCalibration ⟨⟨0, true⟩, 555⟩ ⟨true, true, 7, 3⟩).2.1.zeroOffsetCell
        = 555 ∧
    (readCalibration ⟨⟨0, true⟩, 555⟩ ⟨true, true, 7, 3⟩).2.1.zeroOffsetCell
        ≠ 0 := by
  refine ⟨by decide, by decide, by decide⟩

/-- C7 amended: whenever the persisted gain-factor field reads back as NaN
or as the all-ones sentinel, readCalibration resets both in-memory fields
to the defaults (zeroOffset 0, gainFactor 1.0), rewrites the persisted
gain-factor field with the default 1.0 — leaving the persisted zero-offset
field unchanged — and returns SCALE_EEPROM_READ_CAL_ERROR, continuing with
defaults rather than failing hard. -/
theorem readCalibration_bad_calfactor (e : EEPROMState) (s : ScaleState)
    (h : e.calFactorCell.val = 4294967295 ∨ e.calFactorCell.isnan = true) :
    readCalibration e s =
      (⟨false, false, 0, 1⟩, { e with calFactorCell := ⟨1, false⟩ },
        SCALE_EEPROM_READ_CAL_ERROR) := by
  unfold readCalibration
  rw [if_pos h]

/-- Witness for C7's amended theorem at a NaN gain-factor cell. -/
theorem readCalibration_bad_calfactor_witness :
    readCalibration ⟨⟨0, true⟩, 555⟩ ⟨true, true, 7, 3⟩ =
      (⟨false, false, 0, 1⟩,
        { (⟨⟨0, true⟩, 555⟩ : EEPROMState) with calFactorCell := ⟨1, false⟩ },
        SCALE_EEPROM_READ_CAL_ERROR) :=
  readCalibration_bad_calfactor ⟨⟨0, true⟩, 555⟩ ⟨true, true, 7, 3⟩
    (Or.inr rfl)

set_option maxRecDepth 8000 in
/-- C8: the claim says the averaging timeout budget is computed from the
sample rate actually configured on the device. The code computes
`timeout = average_size * 13` unconditionally ("Hard-coded for 80 hz rate
for now"). Consequence at the failing input: a healthy device configured
at 10 SPS (first conversion ready at 100 ms, `elapsed k = k`) asked for a
single sample makes getAverageReading return NAU7802_TIMEOUT_ERROR after
its 13 ms budget, whereas the same run under a budget derived from the
configured 10 Hz rate (100 ms per sample) succeeds with the sample value. -/
theorem getAverageReading_budget_ignores_rate :
    getAverageReading
        (fun k => if k = 100 then ⟨0, true, 0, 5⟩ else ⟨0, false, 0, 0⟩)
        (fun k => k) 1 30 = some (NAU7802_TIMEOUT_ERROR, none) ∧
    getAverageLoop
        (fun k => if k = 100 then ⟨0, true, 0, 5⟩ else ⟨0, false, 0, 0⟩)
        (fun k => k) 100 1 0 0 0 110 = some (NAU7802_OK, some 5) := by
  refine ⟨rfl, rfl⟩

/-- C9: with the scale calibrated (isCalibrated set) with zeroOffset = 1000
and gainFactor = 2.0, allow_negative = false, and the inner average
succeeding: an averaged raw reading of 900 is clamped to the zero offset
and yields weight 0.0, and an averaged raw reading of 3000 yields weight
(3000 - 1000) / 2.0 = 1000.0, both with SCALE_OK. -/
theorem getAverageWeight_clamps_and_scales :
    getAverageWeight ⟨true, true, 1000, 2⟩ 0 900 false
        = (SCALE_OK, some 0) ∧
    getAverageWeight ⟨true, true, 1000, 2⟩ 0 3000 false
        = (SCALE_OK, some 1000) := by
  constructor <;> norm_num [getAverageWeight, SCALE_OK]

/-- C10: the claim says setZeroOffsetLocation(x) moves the location at
which storeCalibration writes the zero offset to x and leaves the
gain-factor location unchanged. The code's body assigns
`calFactorLocation = eeprom_location`: from the defaults (0, 10), after
setZeroOffsetLocation(20) the zero offset is still persisted at location
10 while the gain factor's location has moved to 20, so storeCalibration
writes the factor at 20 and the offset at 10. -/
theorem setZeroOffsetLocation_moves_calFactorLocation :
    setZeroOffsetLocation 20 defaultLocations = ⟨20, 10⟩ ∧
    (setZeroOffsetLocation 20 defaultLocations).zeroOffsetLocation
        = defaultLocations.zeroOffsetLocation ∧
    storeCalibration
        (setZeroOffsetLocation 20 defaultLocations).calFactorLocation
        (setZeroOffsetLocation 20 defaultLocations).zeroOffsetLocation
        2 77 = ((20, 2), (10, 77)) := by
  refine ⟨rfl, rfl, rfl⟩

end QwiicScaleVerif
